import Mathlib

/-!
Verification of the build-context archival core of Eldius/docker-runner
(package `internal/docker`, plus the `build` cobra subcommand).

The embedding follows `buildRequestReaderWithAllFiles`, `readFile` and
`Client.Build` from `internal/docker` line by line.  Filesystem and
tar-library interactions are modelled explicitly:

* `filepath.Abs` touches the filesystem only through `os.Getwd`; it does
  NOT check that the path exists.  Hence `absOk` is an independent flag,
  not implied by (or implying) the directory's existence.
* `os.ReadDir` fails when the directory does not exist or cannot be
  listed; it is reached exactly when `filepath.Abs` succeeded.
* `archive/tar` semantics (per the Go standard library documentation):
  `WriteHeader` emits a 512-byte header block, `Write` appends the
  content bytes, `Flush` only finishes the current entry's block
  padding, and `Close` additionally writes the end-of-archive marker
  (two 512-byte zero blocks).  We model the produced byte stream at the
  granularity of these records (`TarItem`), which is exactly the level
  the spec's claims speak at (entries, names, sizes, modes, terminator).
* In the Go source `tw.Close()` is only ever run via `defer`, i.e. AFTER
  `bytes.NewReader(buf.Bytes())` has snapshotted the buffer contents, so
  the end-of-archive marker is never part of the returned stream.
-/

/-- One record of the tar byte stream produced through `tar.Writer`:
a header block (name, size, mode as written at lines 133-137), the
content bytes of an entry, or the end-of-archive marker (the two zero
blocks that `tar.Writer.Close` emits). -/
inductive TarItem where
  | header (name : String) (size : Nat) (mode : Nat)
  | fileContent (bytes : List Nat)
  | endOfArchive
  deriving Repr, DecidableEq

/-- The phase in which archiving a single context file failed, as recorded
in the error messages of `buildRequestReaderWithAllFiles`:
`openRead` covers the wrap at line 128 ("opening %s", which the loop
applies both when `os.Open` and when `io.ReadAll` failed inside
`readFile`), `header` the wrap at line 140 ("writing header %s"),
`content` the wrap at line 145 ("writing content %s"). -/
inductive Phase where
  | openRead
  | header
  | content
  deriving Repr, DecidableEq

/-- The error classification sentinels of `internal/docker` that the
archive builder can wrap (lines 36-43), together with the context they
carry.  `dockerfileNotFound` is `DockerfileNotFoundErr` (what the spec
calls the "context path not found" kind, wrapped around `filepath.Abs`
failures), `contextDirRead` is `ContextDirReadErr`, `contextFilesRead`
is `ContextFilesReadErr` carrying the file name and failing phase, and
`contextFilesReadFlush` is the same sentinel with the "(flushing
header)" context of line 151, which names no file. -/
inductive BuildErr where
  | dockerfileNotFound
  | contextDirRead
  | contextFilesRead (file : String) (phase : Phase)
  | contextFilesReadFlush
  deriving Repr, DecidableEq

/-- Result of a Go function that either returns a value, returns an
error, or panics (a nil-pointer dereference has no error value: it
aborts the call chain). -/
inductive Outcome (α : Type) where
  | ok (a : α)
  | err (e : BuildErr)
  | panics
  deriving Repr, DecidableEq

/-- One entry of the `os.ReadDir` listing, together with the outcome of
every fallible operation the builder performs on it: `openOk` is
`os.Open` succeeding inside `readFile`, `readAllOk` is `io.ReadAll`
succeeding, `infoOk` is `d.Info()` succeeding (line 132), and
`headerWriteOk` / `contentWriteOk` are `tw.WriteHeader` / `tw.Write`
succeeding.  `content` is the byte sequence of the (regular) file and
`mode` the numeric value of `i.Mode()` (for a regular file the
`fs.FileMode` has no type bits set, so this is the permission mode). -/
structure DirEntry where
  name : String
  isDir : Bool
  content : List Nat
  mode : Nat
  openOk : Bool
  readAllOk : Bool
  infoOk : Bool
  headerWriteOk : Bool
  contentWriteOk : Bool
  deriving Repr, DecidableEq

/-- The environment of one call to `buildRequestReaderWithAllFiles`:
`absOk` is `filepath.Abs(src)` succeeding (it fails only when
`os.Getwd` fails; it never checks that `src` exists), `dirExists`
whether the source directory exists, `listOk` whether listing an
existing directory succeeds (permissions etc.), `entries` the listing,
and `flushOk` whether `tw.Flush()` at line 150 succeeds. -/
structure SrcDir where
  absOk : Bool
  dirExists : Bool
  listOk : Bool
  entries : List DirEntry
  flushOk : Bool
  deriving Repr, DecidableEq

/-- `readFile` (lines 189-207): open the file, read it fully, return the
bytes; each failure is wrapped with `ContextFilesReadErr` and the file
name.  Both failure wraps are then re-wrapped by the caller's line 128
with the "opening" context, which `Phase.openRead` records. -/
def readFile (d : DirEntry) : Except BuildErr (List Nat) :=
  if !d.openOk then .error (.contextFilesRead d.name .openRead)
  else if !d.readAllOk then .error (.contextFilesRead d.name .openRead)
  else .ok d.content

/-- The loop over the directory listing (lines 124-149): directories are
skipped; for each other entry the file is read (`readFile`), then
`d.Info()` is called with its error DISCARDED (`i, _ := d.Info()`) and
`i.Mode()` dereferenced unconditionally — when `Info` failed, `i` is nil
and the dereference panics; otherwise a header (name, size = content
length, mode) and the content bytes are written to the tar writer. -/
def writeEntries : List DirEntry → Outcome (List TarItem)
  | [] => .ok []
  | d :: rest =>
    if d.isDir then writeEntries rest
    else
      match readFile d with
      | .error e => .err e
      | .ok b =>
        if !d.infoOk then .panics
        else if !d.headerWriteOk then .err (.contextFilesRead d.name .header)
        else if !d.contentWriteOk then .err (.contextFilesRead d.name .content)
        else
          match writeEntries rest with
          | .ok items => .ok (.header d.name b.length d.mode :: .fileContent b :: items)
          | .err e => .err e
          | .panics => .panics

/-- `buildRequestReaderWithAllFiles` (lines 105-156): resolve the
absolute path (failure wrapped as `DockerfileNotFoundErr`), list the
directory (failure wrapped as `ContextDirReadErr`), archive every
non-directory entry, flush, and return a reader over a snapshot of the
buffer.  The returned item list carries NO `endOfArchive` marker: the
only `tw.Close()` is deferred (lines 114-116) and therefore runs after
`buf.Bytes()` has been captured at line 155, so the end-of-archive
blocks it writes are invisible to the returned reader; `tw.Flush()`
only completes the current entry's padding. -/
def buildRequestReaderWithAllFiles (s : SrcDir) : Outcome (List TarItem) :=
  if !s.absOk then .err .dockerfileNotFound
  else if !(s.dirExists && s.listOk) then .err .contextDirRead
  else
    match writeEntries s.entries with
    | .ok items => if s.flushOk then .ok items else .err .contextFilesReadFlush
    | .err e => .err e
    | .panics => .panics

/-- Whether the call reaches `os.ReadDir(srcAbs)` at line 118: the
listing is attempted exactly when `filepath.Abs` succeeded, regardless
of whether the path exists. -/
def readDirAttempted (s : SrcDir) : Bool :=
  s.absOk

/-- The (name, size, mode, content) tuples of the entries present in a
tar item stream, in order. -/
def archiveEntryList : List TarItem → List (String × Nat × Nat × List Nat)
  | .header n sz m :: .fileContent c :: rest => (n, sz, m, c) :: archiveEntryList rest
  | _ :: rest => archiveEntryList rest
  | [] => []

/-- Modelled from the spec: a tar byte stream is finalized (properly
terminated) when it ends with the end-of-archive marker, the two
512-byte zero blocks that `tar.Writer.Close` writes. -/
def isFinalizedTar (items : List TarItem) : Bool :=
  match items.getLast? with
  | some .endOfArchive => true
  | _ => false

/-- An entry on which the archival loop performs no fallible operation
that fails: either a directory (skipped) or a regular entry whose read,
info lookup and tar writes all succeed. -/
def entryOk (d : DirEntry) : Bool :=
  d.isDir || (d.openOk && d.readAllOk && d.infoOk && d.headerWriteOk && d.contentWriteOk)

/-- The `Tags` field of the `types.ImageBuildOptions` value that
`Client.Build` passes to `c.d.ImageBuild` (lines 82-84): the literal
constant list.  `src` — the one argument the caller passes to `Build`
(see `buildCmd`, which forwards its single positional argument) — does
not flow into the options. -/
def imageBuildOptionsTags (_src : String) : List String :=
  ["eldius/test-image"]

/-- One event observed on the build-log stream (`response.Body`): a line
the scanner yields, or a read failure of the underlying stream.
End of the list is end-of-stream. -/
inductive LogEvent where
  | line (s : String)
  | fail (msg : String)
  deriving Repr, DecidableEq

/-- The log-draining loop of `Client.Build` (lines 94-101): a
`bufio.Scanner` over the log stream yields lines, each printed to the
output sink in arrival order; `Scan` returns false at end-of-stream or
when a read error occurs, and `scanner.Err()` reports the latter.
Result: the lines emitted to the sink, in order, and the read error
(`none` on a clean end-of-stream). -/
def drainLog : List LogEvent → List String × Option String
  | [] => ([], none)
  | .line s :: rest =>
    let r := drainLog rest
    (s :: r.1, r.2)
  | .fail msg :: _ => ([], some msg)

/-- The classified errors `Client.Build` can return: `imageBuild` wraps
an archive-builder error with `ImageBuildErr` (line 69), `buildDockerAPI`
is `BuildDockerAPIErr` wrapping a failed `ImageBuild` call (line 87),
and `scanErr` is the log-stream read error returned unwrapped at
line 100. -/
inductive ClientBuildErr where
  | imageBuild (e : BuildErr)
  | buildDockerAPI
  | scanErr (msg : String)
  deriving Repr, DecidableEq

/-- Overall outcome of `Client.Build`: the lines emitted to the output
sink together with the returned error, or a propagated panic from the
archive builder. -/
inductive ClientResult where
  | succeeded (out : List String)
  | failed (out : List String) (e : ClientBuildErr)
  | panicked
  deriving Repr, DecidableEq

/-- `Client.Build` (lines 64-103): build the context archive from `src`
(errors wrapped with `ImageBuildErr`), submit it to the external
`ImageBuild` API (`apiOk` models that call succeeding; on failure wrap
with `BuildDockerAPIErr`), then drain the returned log stream, printing
each line, and return `scanner.Err()`. -/
def ClientBuild (s : SrcDir) (apiOk : Bool) (logStream : List LogEvent) : ClientResult :=
  match buildRequestReaderWithAllFiles s with
  | .panics => .panicked
  | .err e => .failed [] (.imageBuild e)
  | .ok _ =>
    if !apiOk then .failed [] .buildDockerAPI
    else
      match drainLog logStream with
      | (out, some msg) => .failed out (.scanErr msg)
      | (out, none) => .succeeded out

/-- The tar items the archival loop writes for a listing in which no
fallible operation fails: a header and the content bytes for each
non-directory entry, in listing order. -/
def tarItemsOf : List DirEntry → List TarItem
  | [] => []
  | d :: rest =>
    if d.isDir then tarItemsOf rest
    else .header d.name d.content.length d.mode :: .fileContent d.content :: tarItemsOf rest

/-- The phase reported for the first failing operation on an entry whose
archival fails: the open/read wrap when reading the file failed,
otherwise the header wrap when `tw.WriteHeader` failed, otherwise the
content wrap. -/
def failPhase (d : DirEntry) : Phase :=
  if !(d.openOk && d.readAllOk) then .openRead
  else if !d.headerWriteOk then .header
  else .content

theorem readFile_eq (d : DirEntry) :
    readFile d = if d.openOk && d.readAllOk then .ok d.content
      else .error (.contextFilesRead d.name .openRead) := by
  cases h1 : d.openOk <;> cases h2 : d.readAllOk <;> simp [readFile, h1, h2]

theorem writeEntries_append (pre l : List DirEntry) (h : ∀ e ∈ pre, entryOk e = true) :
    writeEntries (pre ++ l) =
      match writeEntries l with
      | .ok items => .ok (tarItemsOf pre ++ items)
      | .err e => .err e
      | .panics => .panics := by
  induction pre with
  | nil =>
    cases hw : writeEntries l <;> simp [hw, tarItemsOf]
  | cons a pre ih =>
    have ha : entryOk a = true := h a (by simp)
    have h' : ∀ e ∈ pre, entryOk e = true := fun e he => h e (by simp [he])
    by_cases hd : a.isDir = true
    · simp only [List.cons_append, writeEntries, hd, if_true, tarItemsOf]
      cases hw : writeEntries l <;> simp [hw, hd, ih h']
    · simp only [entryOk, hd, Bool.false_or, Bool.and_eq_true] at ha
      obtain ⟨⟨⟨⟨ho, hr⟩, hi⟩, hh⟩, hc⟩ := ha
      simp only [List.cons_append, writeEntries, hd, if_false, readFile_eq, ho, hr,
        Bool.and_self, if_true, hi, hh, hc, Bool.not_true, Bool.false_eq_true]
      cases hw : writeEntries l <;> simp [hw, tarItemsOf, hd, ih h']

theorem writeEntries_allOk (l : List DirEntry) (h : ∀ e ∈ l, entryOk e = true) :
    writeEntries l = .ok (tarItemsOf l) := by
  have happ := writeEntries_append l [] h
  simpa [writeEntries] using happ

theorem writeEntries_ok_inv (l : List DirEntry) :
    ∀ items, writeEntries l = .ok items → items = tarItemsOf l := by
  induction l with
  | nil =>
    intro items h
    simp [writeEntries] at h
    simp [← h, tarItemsOf]
  | cons d rest ih =>
    intro items h
    by_cases hd : d.isDir = true
    · simp only [writeEntries, hd, if_true] at h
      simp [tarItemsOf, hd, ih items h]
    · simp only [writeEntries, hd, if_false] at h
      rw [readFile_eq d] at h
      cases hor : (d.openOk && d.readAllOk) <;> rw [hor] at h
      · simp at h
      · simp only [if_true] at h
        cases hi : d.infoOk <;> rw [hi] at h
        · simp at h
        · cases hh : d.headerWriteOk <;> rw [hh] at h
          · simp at h
          · cases hc : d.contentWriteOk <;> rw [hc] at h
            · simp at h
            · simp only [Bool.not_true, Bool.false_eq_true, if_false] at h
              cases hw : writeEntries rest <;> rw [hw] at h
              · simp only [Outcome.ok.injEq] at h
                rw [← h, tarItemsOf, if_neg hd, ih _ hw]
              · simp at h
              · simp at h

theorem archiveEntryList_tarItemsOf (l : List DirEntry) :
    archiveEntryList (tarItemsOf l) =
      (l.filter fun d => !d.isDir).map fun d => (d.name, d.content.length, d.mode, d.content) := by
  induction l with
  | nil => simp [tarItemsOf, archiveEntryList]
  | cons d rest ih =>
    by_cases hd : d.isDir = true
    · simp [tarItemsOf, hd, List.filter_cons, ih]
    · simp [tarItemsOf, hd, List.filter_cons, archiveEntryList, ih]

theorem build_ok_writeEntries (s : SrcDir) (items : List TarItem)
    (h : buildRequestReaderWithAllFiles s = .ok items) :
    writeEntries s.entries = .ok items := by
  unfold buildRequestReaderWithAllFiles at h
  cases habs : s.absOk <;> rw [habs] at h
  · simp at h
  · simp only [Bool.not_true, Bool.false_eq_true, if_false] at h
    cases hdl : (s.dirExists && s.listOk) <;> rw [hdl] at h
    · simp at h
    · simp only [Bool.not_true, Bool.false_eq_true, if_false] at h
      cases hw : writeEntries s.entries <;> rw [hw] at h
      · cases hfl : s.flushOk <;> rw [hfl] at h
        · simp at h
        · simpa using h
      · simp at h
      · simp at h

theorem build_ok_of_allOk (s : SrcDir) (habs : s.absOk = true) (hex : s.dirExists = true)
    (hls : s.listOk = true) (hfl : s.flushOk = true)
    (h : ∀ e ∈ s.entries, entryOk e = true) :
    buildRequestReaderWithAllFiles s = .ok (tarItemsOf s.entries) := by
  simp [buildRequestReaderWithAllFiles, habs, hex, hls, hfl, writeEntries_allOk s.entries h]

theorem writeEntries_fail_head (d : DirEntry) (rest : List DirEntry)
    (hdir : d.isDir = false)
    (hfail : (d.openOk && d.readAllOk && d.headerWriteOk && d.contentWriteOk) = false)
    (hinfo : d.openOk = true → d.readAllOk = true → d.infoOk = true) :
    writeEntries (d :: rest) = .err (.contextFilesRead d.name (failPhase d)) := by
  cases hor : (d.openOk && d.readAllOk)
  · simp [writeEntries, readFile_eq, hor, hdir, failPhase]
  · simp only [Bool.and_eq_true] at hor
    obtain ⟨ho, hr⟩ := hor
    have hi := hinfo ho hr
    rw [ho, hr] at hfail
    simp only [Bool.true_and] at hfail
    cases hh : d.headerWriteOk
    · simp [writeEntries, readFile_eq, ho, hr, hi, hh, hdir, failPhase]
    · rw [hh] at hfail
      simp only [Bool.true_and] at hfail
      simp [writeEntries, readFile_eq, ho, hr, hi, hh, hfail, hdir, failPhase]

theorem drainLog_lines (pre : List String) :
    drainLog (pre.map LogEvent.line) = (pre, none) := by
  induction pre with
  | nil => simp [drainLog]
  | cons a pre ih => simp [drainLog, ih]

theorem drainLog_lines_fail (pre : List String) (m : String) (rest : List LogEvent) :
    drainLog (pre.map LogEvent.line ++ .fail m :: rest) = (pre, some m) := by
  induction pre with
  | nil => simp [drainLog]
  | cons a pre ih => simp [drainLog, ih]

/-- A regular context file with three content bytes and mode 0644. -/
def fileA : DirEntry :=
  { name := "a.txt", isDir := false, content := [104, 105, 10], mode := 420,
    openOk := true, readAllOk := true, infoOk := true,
    headerWriteOk := true, contentWriteOk := true }

/-- An empty regular context file with mode 0644. -/
def fileB : DirEntry :=
  { name := "b.txt", isDir := false, content := [], mode := 420,
    openOk := true, readAllOk := true, infoOk := true,
    headerWriteOk := true, contentWriteOk := true }

/-- A call environment for a source path that does not exist: the
absolute path resolves (as `filepath.Abs` always does when `Getwd`
works) but the directory is missing. -/
def missingDir : SrcDir :=
  { absOk := true, dirExists := false, listOk := true, entries := [], flushOk := true }

/-- A fault-free call environment whose directory holds one regular file. -/
def oneFileDir : SrcDir :=
  { absOk := true, dirExists := true, listOk := true, entries := [fileA], flushOk := true }

/-- A fault-free call environment whose directory holds two regular files. -/
def twoFileDir : SrcDir :=
  { absOk := true, dirExists := true, listOk := true, entries := [fileA, fileB], flushOk := true }

/-- A fault-free call environment whose directory is empty. -/
def emptyDir : SrcDir :=
  { absOk := true, dirExists := true, listOk := true, entries := [], flushOk := true }

/-- C1 (counterexample): the claim states that for a non-existent source
path the builder fails with the "context path not found" kind
(`dockerfileNotFound`) and never attempts the directory listing.  On
the code this is false: `filepath.Abs` never checks existence, so for a
missing directory the listing IS attempted, fails, and the builder
returns the "context directory read" kind instead. -/
theorem missing_dir_claim_cex :
    buildRequestReaderWithAllFiles missingDir = .err .contextDirRead
    ∧ BuildErr.contextDirRead ≠ BuildErr.dockerfileNotFound
    ∧ readDirAttempted missingDir = true :=
  ⟨rfl, by decide, rfl⟩

/-- C1 (amended): for every source path that does not exist (with
absolute-path resolution succeeding, as it always does when the working
directory is available), the builder attempts the directory listing and
fails with the "context directory read" error kind. -/
theorem missing_dir_contextDirRead (s : SrcDir) (habs : s.absOk = true)
    (hex : s.dirExists = false) :
    buildRequestReaderWithAllFiles s = .err .contextDirRead
    ∧ readDirAttempted s = true := by
  refine ⟨?_, by simp [readDirAttempted, habs]⟩
  simp [buildRequestReaderWithAllFiles, habs, hex]

/-- C1 (amended, witness): concrete run on a missing directory. -/
theorem missing_dir_contextDirRead_witness :
    buildRequestReaderWithAllFiles missingDir = .err .contextDirRead
    ∧ readDirAttempted missingDir = true :=
  missing_dir_contextDirRead missingDir rfl rfl

/-- C2: the claim states every successful run returns a finalized,
properly terminated tar stream, with all terminator bytes present
before the stream is handed to the invoker.  The code violates this:
`tw.Close()` — the only operation that writes the end-of-archive
marker — runs deferred, after `buf.Bytes()` has been snapshotted, so
the returned stream never contains the terminator.  Evaluated on a
fault-free one-file directory: the build succeeds, yet the returned
stream is not a finalized archive. -/
theorem build_stream_missing_terminator :
    buildRequestReaderWithAllFiles oneFileDir =
      .ok [.header "a.txt" 3 420, .fileContent [104, 105, 10]]
    ∧ isFinalizedTar [.header "a.txt" 3 420, .fileContent [104, 105, 10]] = false :=
  ⟨rfl, rfl⟩

/-- C3: for every directory containing only regular files (and no I/O
faults), the builder succeeds and the archive contains exactly one
entry per file, in listing order, each with header name equal to the
file's name, header size equal to the byte length of the file's
content, and header mode equal to the file's mode. -/
theorem build_archives_each_regular_file (s : SrcDir)
    (habs : s.absOk = true) (hex : s.dirExists = true) (hls : s.listOk = true)
    (hfl : s.flushOk = true)
    (hreg : ∀ d ∈ s.entries, d.isDir = false ∧ entryOk d = true) :
    buildRequestReaderWithAllFiles s = .ok (tarItemsOf s.entries)
    ∧ archiveEntryList (tarItemsOf s.entries) =
        s.entries.map fun d => (d.name, d.content.length, d.mode, d.content) := by
  constructor
  · exact build_ok_of_allOk s habs hex hls hfl (fun e he => (hreg e he).2)
  · rw [archiveEntryList_tarItemsOf]
    have hfilter : s.entries.filter (fun d => !d.isDir) = s.entries :=
      List.filter_eq_self.mpr (fun d hd => by simp [(hreg d hd).1])
    rw [hfilter]

/-- C3 (witness): concrete run on a directory with two regular files. -/
theorem build_archives_each_regular_file_witness :
    buildRequestReaderWithAllFiles twoFileDir = .ok (tarItemsOf twoFileDir.entries)
    ∧ archiveEntryList (tarItemsOf twoFileDir.entries) =
        twoFileDir.entries.map fun d => (d.name, d.content.length, d.mode, d.content) :=
  build_archives_each_regular_file twoFileDir rfl rfl rfl rfl (by decide)

/-- C4: the claim states an empty source directory yields a valid,
header-only (terminated) tar archive and no error.  The code does
return no error and an archive with no entries, but the returned stream
also lacks the end-of-archive marker (the deferred `Close` runs only
after the buffer snapshot), so it is an empty byte stream, not a valid
terminated archive. -/
theorem build_empty_dir_unterminated :
    buildRequestReaderWithAllFiles emptyDir = .ok []
    ∧ archiveEntryList [] = []
    ∧ isFinalizedTar [] = false :=
  ⟨rfl, rfl, rfl⟩

/-- C5: for every source directory whose listing has unique names (as
directory listings do), no subdirectory ever appears as an entry in a
successfully produced archive: only first-level non-directory entries
are archived, with no recursion. -/
theorem build_never_archives_subdir (s : SrcDir) (items : List TarItem) (d : DirEntry)
    (hnd : (s.entries.map DirEntry.name).Nodup)
    (h : buildRequestReaderWithAllFiles s = .ok items)
    (hmem : d ∈ s.entries) (hdir : d.isDir = true) :
    d.name ∉ (archiveEntryList items).map Prod.fst := by
  have hitems := writeEntries_ok_inv s.entries items (build_ok_writeEntries s items h)
  subst hitems
  rw [archiveEntryList_tarItemsOf]
  intro hcontra
  rw [List.map_map, List.mem_map] at hcontra
  obtain ⟨d2, hd2mem, hname⟩ := hcontra
  rw [List.mem_filter] at hd2mem
  obtain ⟨hd2mem, hd2dir⟩ := hd2mem
  have hname2 : d2.name = d.name := hname
  have heq : d2 = d := List.inj_on_of_nodup_map hnd hd2mem hmem hname2
  subst heq
  simp [hdir] at hd2dir

/-- A subdirectory entry appearing in a listing. -/
def subEntry : DirEntry :=
  { name := "sub", isDir := true, content := [], mode := 493,
    openOk := true, readAllOk := true, infoOk := true,
    headerWriteOk := true, contentWriteOk := true }

/-- A fault-free call environment whose directory holds one
subdirectory and one regular file. -/
def subDirDir : SrcDir :=
  { absOk := true, dirExists := true, listOk := true,
    entries := [subEntry, fileA], flushOk := true }

/-- C5 (witness): concrete run on a directory with a subdirectory. -/
theorem build_never_archives_subdir_witness :
    "sub" ∉ (archiveEntryList (tarItemsOf subDirDir.entries)).map Prod.fst :=
  build_never_archives_subdir subDirDir (tarItemsOf subDirDir.entries) subEntry
    (by decide) rfl (by decide) rfl

/-- C6: whenever opening or fully reading an individual file, or writing
its tar header or its content, fails during archival (with the earlier
listing entries archiving cleanly and the file-info lookup not itself
failing, which panics instead — see C10), the builder returns the
"context file read" error class carrying the offending file's name and
the failing phase, and returns no archive. -/
theorem build_file_failure_classified (s : SrcDir) (pre rest : List DirEntry) (d : DirEntry)
    (habs : s.absOk = true) (hex : s.dirExists = true) (hls : s.listOk = true)
    (hsplit : s.entries = pre ++ d :: rest)
    (hpre : ∀ e ∈ pre, entryOk e = true)
    (hdir : d.isDir = false)
    (hfail : (d.openOk && d.readAllOk && d.headerWriteOk && d.contentWriteOk) = false)
    (hinfo : d.openOk = true → d.readAllOk = true → d.infoOk = true) :
    buildRequestReaderWithAllFiles s = .err (.contextFilesRead d.name (failPhase d)) := by
  have hhead := writeEntries_fail_head d rest hdir hfail hinfo
  have hw : writeEntries s.entries = .err (.contextFilesRead d.name (failPhase d)) := by
    rw [hsplit, writeEntries_append pre (d :: rest) hpre, hhead]
  simp [buildRequestReaderWithAllFiles, habs, hex, hls, hw]

/-- A regular context file whose tar header write fails. -/
def badHeaderFile : DirEntry :=
  { name := "bad.txt", isDir := false, content := [1, 2], mode := 420,
    openOk := true, readAllOk := true, infoOk := true,
    headerWriteOk := false, contentWriteOk := true }

/-- A call environment in which writing one file's tar header fails. -/
def badHeaderDir : SrcDir :=
  { absOk := true, dirExists := true, listOk := true,
    entries := [fileA, badHeaderFile], flushOk := true }

/-- C6 (witness): concrete run in which the header write of the second
file fails: the builder reports that file's name and the header phase. -/
theorem build_file_failure_classified_witness :
    buildRequestReaderWithAllFiles badHeaderDir =
      .err (.contextFilesRead "bad.txt" .header) :=
  build_file_failure_classified badHeaderDir [fileA] [] badHeaderFile
    rfl rfl rfl rfl (by decide) rfl (by decide) (fun _ _ => rfl)

/-- C7: for every log stream produced by a successful build API call,
`Client.Build` emits each log line to the output sink in arrival order
until end-of-stream, and when reading the stream fails mid-stream it
returns that read error to the caller instead of swallowing it (the
lines already emitted stay emitted). -/
theorem client_build_relays_log (s : SrcDir) (items : List TarItem)
    (pre : List String) (m : String) (rest : List LogEvent)
    (h : buildRequestReaderWithAllFiles s = .ok items) :
    ClientBuild s true (pre.map LogEvent.line) = .succeeded pre
    ∧ ClientBuild s true (pre.map LogEvent.line ++ .fail m :: rest) =
        .failed pre (.scanErr m) := by
  constructor
  · unfold ClientBuild
    rw [h]
    simp [drainLog_lines]
  · unfold ClientBuild
    rw [h]
    simp [drainLog_lines_fail]

/-- A fault-free call environment used for the log-relay witness. -/
def okCtxDir : SrcDir :=
  { absOk := true, dirExists := true, listOk := true, entries := [fileB], flushOk := true }

/-- C7 (witness): concrete two-line log relayed in order, and the same
prefix followed by a mid-stream read failure propagated to the caller. -/
theorem client_build_relays_log_witness :
    ClientBuild okCtxDir true [LogEvent.line "Step 1/1", LogEvent.line "Successfully built"] =
      .succeeded ["Step 1/1", "Successfully built"]
    ∧ ClientBuild okCtxDir true
        [LogEvent.line "Step 1/1", LogEvent.line "Successfully built",
         LogEvent.fail "connection reset"] =
      .failed ["Step 1/1", "Successfully built"] (.scanErr "connection reset") :=
  client_build_relays_log okCtxDir (tarItemsOf okCtxDir.entries)
    ["Step 1/1", "Successfully built"] "connection reset" [] rfl

/-- C8: invoking the builder twice on an unchanged directory — modelled
as two runs whose listings hold the same entries, possibly in different
listing order — yields archives whose entry multisets (name, size,
mode, content) are identical, even when the raw streams differ because
of the ordering. -/
theorem build_idempotent_entry_sets (s1 s2 : SrcDir) (i1 i2 : List TarItem)
    (h1 : buildRequestReaderWithAllFiles s1 = .ok i1)
    (h2 : buildRequestReaderWithAllFiles s2 = .ok i2)
    (hperm : s1.entries.Perm s2.entries) :
    (archiveEntryList i1).Perm (archiveEntryList i2) := by
  have e1 := writeEntries_ok_inv s1.entries i1 (build_ok_writeEntries s1 i1 h1)
  have e2 := writeEntries_ok_inv s2.entries i2 (build_ok_writeEntries s2 i2 h2)
  subst e1
  subst e2
  rw [archiveEntryList_tarItemsOf, archiveEntryList_tarItemsOf]
  exact (hperm.filter _).map _

/-- The two-file call environment listed in the opposite order. -/
def twoFileDirSwapped : SrcDir :=
  { absOk := true, dirExists := true, listOk := true,
    entries := [fileB, fileA], flushOk := true }

/-- C8 (witness): the same two files listed in both orders yield
archives with the same entry multiset. -/
theorem build_idempotent_entry_sets_witness :
    (archiveEntryList (tarItemsOf twoFileDir.entries)).Perm
      (archiveEntryList (tarItemsOf twoFileDirSwapped.entries)) :=
  build_idempotent_entry_sets twoFileDir twoFileDirSwapped
    (tarItemsOf twoFileDir.entries) (tarItemsOf twoFileDirSwapped.entries)
    rfl rfl (by decide)

/-- C9 (counterexample): the claim states the build options passed to
the external build API contain an image tag supplied by the caller, not
fixed by the tool.  On the code this is false: the `Tags` field is the
hardcoded constant list, identical for distinct caller-supplied context
paths. -/
theorem image_tag_not_caller_supplied_cex :
    imageBuildOptionsTags "ctx-a" = imageBuildOptionsTags "ctx-b"
    ∧ imageBuildOptionsTags "ctx-a" = ["eldius/test-image"]
    ∧ ("ctx-a" : String) ≠ "ctx-b" :=
  ⟨rfl, rfl, by decide⟩

/-- C9 (amended): for every build invocation, the build options passed
to the external build API contain exactly one image tag, the constant
"eldius/test-image" fixed by the tool; the caller-supplied input (the
context path) does not influence it. -/
theorem image_build_tags_constant (src : String) :
    imageBuildOptionsTags src = ["eldius/test-image"] :=
  rfl

/-- C10: for a non-directory entry obtained from a successful listing,
when the entry is read successfully but its file-info lookup fails, the
builder — having discarded the `Info` error and dereferenced the nil
info value for its mode — panics instead of returning a classified
error. -/
theorem build_panics_on_info_failure (s : SrcDir) (pre rest : List DirEntry) (d : DirEntry)
    (habs : s.absOk = true) (hex : s.dirExists = true) (hls : s.listOk = true)
    (hsplit : s.entries = pre ++ d :: rest)
    (hpre : ∀ e ∈ pre, entryOk e = true)
    (hdir : d.isDir = false) (ho : d.openOk = true) (hr : d.readAllOk = true)
    (hi : d.infoOk = false) :
    buildRequestReaderWithAllFiles s = .panics := by
  have hhead : writeEntries (d :: rest) = .panics := by
    simp [writeEntries, readFile_eq, hdir, ho, hr, hi]
  have hw : writeEntries s.entries = .panics := by
    rw [hsplit, writeEntries_append pre (d :: rest) hpre, hhead]
  simp [buildRequestReaderWithAllFiles, habs, hex, hls, hw]

/-- A regular context file whose `Info` lookup fails after a successful
read (e.g. the file was unlinked between reading and stat). -/
def noInfoFile : DirEntry :=
  { name := "gone.txt", isDir := false, content := [9], mode := 420,
    openOk := true, readAllOk := true, infoOk := false,
    headerWriteOk := true, contentWriteOk := true }

/-- A call environment in which one entry's `Info` lookup fails. -/
def noInfoDir : SrcDir :=
  { absOk := true, dirExists := true, listOk := true,
    entries := [noInfoFile], flushOk := true }

/-- C10 (witness): concrete run in which the single entry's info lookup
fails: the builder panics. -/
theorem build_panics_on_info_failure_witness :
    buildRequestReaderWithAllFiles noInfoDir = .panics :=
  build_panics_on_info_failure noInfoDir [] [] noInfoFile
    rfl rfl rfl rfl (by decide) rfl rfl rfl rfl
